import Mathlib

/-!
Shallow embedding of the MetaConscious planning subsystem
(`backend/app/services/planning_engine.py`, `backend/app/services/llm_client.py`,
`backend/app/services/scheduler.py`, `backend/app/models/schemas.py`)
and proofs about the planning pipeline, the plan validator, the retry
policies, the override quota and the week-number bucketing.

Dates are modelled in the proleptic Gregorian calendar as triples
`(year, month, day)`; an absolute day count (days since 0000-03-01)
gives `timedelta` arithmetic and Python's `datetime.weekday()`.
-/

namespace MetaConscious

/-! ## Calendar arithmetic (model of Python `datetime.date` / `timedelta`) -/

/-- Gregorian leap-year rule, as used by `datetime`. -/
def isLeapYear (y : Nat) : Bool :=
  y % 4 == 0 && (y % 100 != 0 || y % 400 == 0)

/-- Days in a month of the Gregorian calendar. -/
def daysInMonth (y m : Nat) : Nat :=
  if m == 2 then (if isLeapYear y then 29 else 28)
  else if m == 4 || m == 6 || m == 9 || m == 11 then 30
  else 31

/-- Absolute day number of a civil date: days since 0000-03-01
(Gregorian, valid for `1 ≤ y`).  1970-01-01 is day 719468. -/
def daysFromCivil (y m d : Nat) : Nat :=
  let y' := if m ≤ 2 then y - 1 else y
  let era := y' / 400
  let yoe := y' % 400
  let mp := if m > 2 then m - 3 else m + 9
  let doy := (153 * mp + 2) / 5 + d - 1
  let doe := yoe * 365 + yoe / 4 - yoe / 100 + doy
  era * 146097 + doe

/-- Inverse of `daysFromCivil`: the civil date `(y, m, d)` of an
absolute day number. -/
def civilFromDays (n : Nat) : Nat × Nat × Nat :=
  let era := n / 146097
  let doe := n % 146097
  let yoe := (doe - doe / 1460 + doe / 36524 - doe / 146096) / 365
  let y' := yoe + era * 400
  let doy := doe - (365 * yoe + yoe / 4 - yoe / 100)
  let mp := (5 * doy + 2) / 153
  let d := doy - (153 * mp + 2) / 5 + 1
  let m := if mp < 10 then mp + 3 else mp - 9
  (if m ≤ 2 then y' + 1 else y', m, d)

/-- Python `date.weekday()`: Monday = 0 … Sunday = 6, from the absolute
day number (0000-03-01 was a Wednesday, so day 719468 = 1970-01-01 maps
to 3 = Thursday). -/
def pyWeekday (n : Nat) : Nat := (n + 2) % 7

/-! ## `PlanningEngine.get_week_number` (planning_engine.py lines 257-283) -/

/-- Embedding of `PlanningEngine.get_week_number`, translated statement
by statement from `planning_engine.py`: `day_num = weekday() + 1`, Sunday (7) is
remapped to 0, the date is shifted by `4 - day_num` days, and the week
number is `(days since Jan 1 of the shifted date's year + 1 + 6) / 7`.
The shift `n + (4 - dayNum)` is written `n + 4 - dayNum` to stay in
`Nat`; the two agree because `n ≥ 3` for every year ≥ 1. -/
def getWeekNumber (y m d : Nat) : Nat :=
  let n := daysFromCivil y m d
  let dayNum0 := pyWeekday n + 1
  let dayNum := if dayNum0 == 7 then 0 else dayNum0
  let thuN := n + 4 - dayNum
  let thu := civilFromDays thuN
  let yearStartN := daysFromCivil thu.1 1 1
  let daysDiff := thuN - yearStartN + 1
  (daysDiff + 6) / 7

/-! ## Model of `datetime.strptime(s, "%Y-%m-%d")`

CPython's `_strptime` builds a regex from the format: `%Y` is four
digits, `%m` is `1[0-2]|0[1-9]|[1-9]`, `%d` is `3[01]|[12]\d|0[1-9]|[1-9]`
(alternatives tried left to right), literal `-` in between; the match
must consume the whole string ("unconverted data remains" otherwise),
and the resulting numbers must form a real date with year ≥ 1.
Only ASCII digits are modelled. -/

/-- Numeric value of an ASCII digit. -/
def digitVal (c : Char) : Nat := c.toNat - 48

/-- Matcher for the `%Y` fragment: exactly four digits. -/
def matchYear : List Char → Option (Nat × List Char)
  | a :: b :: c :: d :: rest =>
    if a.isDigit && b.isDigit && c.isDigit && d.isDigit then
      some (1000 * digitVal a + 100 * digitVal b + 10 * digitVal c + digitVal d, rest)
    else none
  | _ => none

/-- Matcher for the `%m` fragment `1[0-2]|0[1-9]|[1-9]`, alternatives in
regex order. -/
def matchMonth : List Char → Option (Nat × List Char)
  | c1 :: c2 :: rest =>
    if c1 == '1' && ('0' ≤ c2 && c2 ≤ '2') then some (10 + digitVal c2, rest)
    else if c1 == '0' && ('1' ≤ c2 && c2 ≤ '9') then some (digitVal c2, rest)
    else if '1' ≤ c1 && c1 ≤ '9' then some (digitVal c1, c2 :: rest)
    else none
  | [c1] => if '1' ≤ c1 && c1 ≤ '9' then some (digitVal c1, []) else none
  | [] => none

/-- Matcher for the `%d` fragment `3[01]|[12]\d|0[1-9]|[1-9]`,
alternatives in regex order. -/
def matchDay : List Char → Option (Nat × List Char)
  | c1 :: c2 :: rest =>
    if c1 == '3' && (c2 == '0' || c2 == '1') then some (30 + digitVal c2, rest)
    else if (c1 == '1' || c1 == '2') && c2.isDigit then
      some (10 * digitVal c1 + digitVal c2, rest)
    else if c1 == '0' && ('1' ≤ c2 && c2 ≤ '9') then some (digitVal c2, rest)
    else if '1' ≤ c1 && c1 ≤ '9' then some (digitVal c1, c2 :: rest)
    else none
  | [c1] => if '1' ≤ c1 && c1 ≤ '9' then some (digitVal c1, []) else none
  | [] => none

/-- Model of `datetime.strptime(s, "%Y-%m-%d").date()`: `some (y, m, d)`
when parsing succeeds, `none` when Python raises `ValueError`. -/
def strptimeYmd (s : String) : Option (Nat × Nat × Nat) :=
  match matchYear s.data with
  | none => none
  | some (y, rest1) =>
    match rest1 with
    | '-' :: rest2 =>
      match matchMonth rest2 with
      | none => none
      | some (m, rest3) =>
        match rest3 with
        | '-' :: rest4 =>
          match matchDay rest4 with
          | none => none
          | some (d, rest5) =>
            if rest5.isEmpty && 1 ≤ y && d ≤ daysInMonth y m then
              some (y, m, d)
            else none
        | _ => none
    | _ => none

/-- Model of `date.strftime('%Y-%m-%d')` for a `(y, m, d)` triple:
zero-padded four-digit year and two-digit month and day. -/
def pad2 (n : Nat) : String := if n < 10 then "0" ++ toString n else toString n

/-- Zero padding of the year to four digits, as `%Y` does on CPython. -/
def pad4 (n : Nat) : String :=
  if n < 10 then "000" ++ toString n
  else if n < 100 then "00" ++ toString n
  else if n < 1000 then "0" ++ toString n
  else toString n

/-- Render `(y, m, d)` in `%Y-%m-%d` form. -/
def strftimeYmd (ymd : Nat × Nat × Nat) : String :=
  pad4 ymd.1 ++ "-" ++ pad2 ymd.2.1 ++ "-" ++ pad2 ymd.2.2

/-! ## Plan schema (schemas.py)

The pydantic models `TimeBlock`, `GoalProgress`, `SocialTime` and
`DailyPlan` are embedded as records whose fields carry the JSON types of
the schema (strings as `String`, integers as `Int`, optional values as
`Option`, the `status` literal as a checked `String`); the `Field`
constraints (regex patterns, `min_length`, `ge`/`le`) become the checks
of `validate_plan`, which reports the first failing field's name. -/

/-- Shape check for the regex `^\d{2}:\d{2}$` of `start_time`/`end_time`. -/
def hhmmShape (s : String) : Bool :=
  match s.data with
  | [a, b, c, d, e] => a.isDigit && b.isDigit && c == ':' && d.isDigit && e.isDigit
  | _ => false

/-- Character class `[0-9a-f-]` of the identifier patterns. -/
def uuidChar (c : Char) : Bool := c.isDigit || ('a' ≤ c && c ≤ 'f') || c == '-'

/-- Shape check for the regex `^[0-9a-f-]{36}$` of `task_id`/`goal_id`. -/
def uuid36 (s : String) : Bool := s.length == 36 && s.data.all uuidChar

/-- Shape check for the regex `^\d{4}-\d{2}-\d{2}$` of `date`. -/
def dateShape (s : String) : Bool :=
  match s.data with
  | [a, b, c, d, h1, e, f, h2, g, k] =>
    a.isDigit && b.isDigit && c.isDigit && d.isDigit && h1 == '-' &&
      e.isDigit && f.isDigit && h2 == '-' && g.isDigit && k.isDigit
  | _ => false

/-- Record for the pydantic model `TimeBlock` of schemas.py. -/
structure TimeBlock where
  start_time : String
  end_time : String
  task_id : Option String
  activity : String
  priority : Int
  reasoning : String
deriving Repr, DecidableEq

/-- Record for the pydantic model `GoalProgress` of schemas.py. -/
structure GoalProgress where
  goal_id : String
  status : String
  action_needed : String
deriving Repr, DecidableEq

/-- Record for the pydantic model `SocialTime` of schemas.py. -/
structure SocialTime where
  total_minutes : Int
  reasoning : String
deriving Repr, DecidableEq

/-- Record for the pydantic model `DailyPlan` of schemas.py. -/
structure DailyPlan where
  date : String
  reasoning : String
  priority_analysis : String
  time_blocks : List TimeBlock
  social_time_allocation : SocialTime
  goal_progress_assessment : List GoalProgress
  warnings : List String
deriving Repr, DecidableEq

/-- Field constraints of `TimeBlock`, checked in declaration order;
returns the name of the first failing field, `none` when all pass. -/
def checkTimeBlock (tb : TimeBlock) : Option String :=
  if !hhmmShape tb.start_time then some "start_time"
  else if !hhmmShape tb.end_time then some "end_time"
  else if !(match tb.task_id with | none => true | some t => uuid36 t) then some "task_id"
  else if tb.activity.length < 1 then some "activity"
  else if !(1 ≤ tb.priority && tb.priority ≤ 5) then some "priority"
  else if tb.reasoning.length < 1 then some "reasoning"
  else none

/-- Field constraints of `GoalProgress` (the `status` literal is
`on_track`, `at_risk` or `blocked`; `action_needed` is unconstrained). -/
def checkGoalProgress (gp : GoalProgress) : Option String :=
  if !uuid36 gp.goal_id then some "goal_id"
  else if !(gp.status == "on_track" || gp.status == "at_risk" || gp.status == "blocked") then
    some "status"
  else none

/-- Embedding of `validate_plan` of schemas.py: builds a `DailyPlan`
from the candidate data, raising `ValueError` (modelled as `.error`
naming the failing field) on the first constraint violation. -/
def validate_plan (p : DailyPlan) : Except String DailyPlan :=
  if !dateShape p.date then .error "date"
  else if p.reasoning.length < 10 then .error "reasoning"
  else if p.priority_analysis.length < 10 then .error "priority_analysis"
  else
    match p.time_blocks.findSome? checkTimeBlock with
    | some f => .error ("time_blocks." ++ f)
    | none =>
      if !(0 ≤ p.social_time_allocation.total_minutes) then
        .error "social_time_allocation.total_minutes"
      else if p.social_time_allocation.reasoning.length < 1 then
        .error "social_time_allocation.reasoning"
      else
        match p.goal_progress_assessment.findSome? checkGoalProgress with
        | some f => .error ("goal_progress_assessment." ++ f)
        | none => .ok p

/-! ### Spec-side structural contract (written from §4.2 of the spec)

The following predicates restate the claim's wording of the contract:
date a `YYYY-MM-DD` string, reasoning and priority analysis at least 10
characters, every time block with `HH:MM` times, `task_id` null or a
36-character identifier, non-empty activity, priority in [1,5] and
non-empty reasoning, non-negative `total_minutes` with non-empty
reasoning, identifier-shaped `goal_id` with a status from the allowed
set, warnings a possibly empty list of strings. -/

/-- Spec-side: one time block matches the contract of §4.2. -/
def timeBlockOk (tb : TimeBlock) : Bool :=
  hhmmShape tb.start_time && hhmmShape tb.end_time &&
    (match tb.task_id with | none => true | some t => uuid36 t) &&
    !(tb.activity.length == 0) && (1 ≤ tb.priority && tb.priority ≤ 5) &&
    !(tb.reasoning.length == 0)

/-- Spec-side: one goal-progress entry matches the contract of §4.2. -/
def goalProgressOk (gp : GoalProgress) : Bool :=
  uuid36 gp.goal_id &&
    (gp.status == "on_track" || gp.status == "at_risk" || gp.status == "blocked")

/-- Spec-side: the whole candidate matches the structural contract of
§4.2 of the spec. -/
def planMatchesContract (p : DailyPlan) : Bool :=
  dateShape p.date && 10 ≤ p.reasoning.length && 10 ≤ p.priority_analysis.length &&
    p.time_blocks.all timeBlockOk &&
    0 ≤ p.social_time_allocation.total_minutes &&
    !(p.social_time_allocation.reasoning.length == 0) &&
    p.goal_progress_assessment.all goalProgressOk

/-- Boolean success test for `Except` results. -/
def exceptIsOk : Except ε α → Bool
  | .ok _ => true
  | .error _ => false

theorem checkTimeBlock_eq_none (tb : TimeBlock) :
    checkTimeBlock tb = none ↔ timeBlockOk tb = true := by
  simp only [checkTimeBlock, timeBlockOk]
  split_ifs with h1 h2 h3 h4 h5 h6 <;> simp_all <;> omega

theorem checkGoalProgress_eq_none (gp : GoalProgress) :
    checkGoalProgress gp = none ↔ goalProgressOk gp = true := by
  simp only [checkGoalProgress, goalProgressOk]
  split_ifs with h1 h2 <;> simp_all <;> tauto

/-- Validation succeeds exactly on candidates matching the structural
contract. -/
theorem validate_plan_isOk (p : DailyPlan) :
    exceptIsOk (validate_plan p) = planMatchesContract p := by
  simp only [validate_plan, planMatchesContract]
  cases hf : p.time_blocks.findSome? checkTimeBlock with
  | some f =>
    rcases List.exists_of_findSome?_eq_some hf with ⟨tb, htb, hcheck⟩
    have hbad : ¬ timeBlockOk tb = true := by
      rw [← checkTimeBlock_eq_none]; simp [hcheck]
    have hall : p.time_blocks.all timeBlockOk = false := by
      rw [List.all_eq_false]; exact ⟨tb, htb, hbad⟩
    simp only [hf, hall]
    split_ifs <;> simp [exceptIsOk]
  | none =>
    have hall : p.time_blocks.all timeBlockOk = true := by
      rw [List.all_eq_true]
      intro tb htb
      exact (checkTimeBlock_eq_none tb).mp (List.findSome?_eq_none_iff.mp hf tb htb)
    cases hg : p.goal_progress_assessment.findSome? checkGoalProgress with
    | some f =>
      rcases List.exists_of_findSome?_eq_some hg with ⟨gp, hgp, hcheck⟩
      have hbad : ¬ goalProgressOk gp = true := by
        rw [← checkGoalProgress_eq_none]; simp [hcheck]
      have hallg : p.goal_progress_assessment.all goalProgressOk = false := by
        rw [List.all_eq_false]; exact ⟨gp, hgp, hbad⟩
      simp only [hf, hg, hall, hallg]
      split_ifs <;> simp [exceptIsOk]
    | none =>
      have hallg : p.goal_progress_assessment.all goalProgressOk = true := by
        rw [List.all_eq_true]
        intro gp hgp
        exact (checkGoalProgress_eq_none gp).mp (List.findSome?_eq_none_iff.mp hg gp hgp)
      simp only [hf, hg, hall, hallg]
      split_ifs with h1 h2 h3 h4 h5 <;> simp_all [exceptIsOk] <;> omega

/-! ## Planning engine (planning_engine.py)

The `daily_plans` table is a list of rows; the LLM call
`llm_client.generate_plan(context)` is external nondeterminism, given
to the engine as a function from the attempt index to its outcome
(`.error` for a raised exception — LLM failure or invalid JSON — with
the exception's message).  Timestamps (`created_at`, `modified_at`) are
not modelled. -/

/-- One row of the `daily_plans` table. -/
structure PlanRow where
  user_id : String
  plan_date : Nat × Nat × Nat
  plan_json : DailyPlan
  reasoning : String
  is_override : Bool
deriving Repr, DecidableEq

/-- Row test for the `(user_id, plan_date)` conflict key. -/
def rowHasKey (u : String) (d : Nat × Nat × Nat) (r : PlanRow) : Bool :=
  r.user_id == u && r.plan_date == d

/-- Embedding of the SQL upsert of `PlanningEngine.save_plan`
(`INSERT ... ON CONFLICT (user_id, plan_date) DO UPDATE SET plan_json,
reasoning, modified_at`): when a row with the key exists, its payload
and reasoning are overwritten and `is_override` is kept; otherwise a
fresh row with `is_override = false` is appended.  The `strptime` of
`plan_date` inside `save_plan` is performed by the caller in this
model (the engine parses the identical string on entry). -/
def save_plan (db : List PlanRow) (u : String) (d : Nat × Nat × Nat)
    (plan : DailyPlan) : List PlanRow :=
  if db.any (rowHasKey u d) then
    db.map (fun r =>
      if rowHasKey u d r then { r with plan_json := plan, reasoning := plan.reasoning }
      else r)
  else
    db ++ [{ user_id := u, plan_date := d, plan_json := plan,
             reasoning := plan.reasoning, is_override := false }]

/-- Value of `self.max_retries` set in `PlanningEngine.__init__`. -/
def engineMaxRetries : Nat := 3

/-- The generation loop of `generate_daily_plan` (steps 2-4 of §4.4):
`for attempt in range(max_retries)` calling the LLM and the validator,
breaking on the first success, recording the last exception otherwise.
Arguments: next attempt index, remaining iterations, last error so
far; result: the validated plan if any, the last error, and the number
of attempts made. -/
def planLoop (llm : Nat → Except String DailyPlan) :
    Nat → Nat → Option String → Option DailyPlan × Option String × Nat
  | attempt, 0, lastErr => (none, lastErr, attempt)
  | attempt, fuel + 1, lastErr =>
    match llm attempt with
    | .error e => planLoop llm (attempt + 1) fuel (some e)
    | .ok raw =>
      match validate_plan raw with
      | .error e => planLoop llm (attempt + 1) fuel (some ("Invalid plan structure: " ++ e))
      | .ok plan => (some plan, lastErr, attempt + 1)

/-- Errors raised by `generate_daily_plan`: the `ValueError` of the
`strptime` at entry, or the aggregated failure
`Failed to generate valid plan after {max_retries} attempts: {last_error}`. -/
inductive GenError where
  | valueError
  | generationFailed (attempts : Nat) (last : Option String)
deriving Repr, DecidableEq

/-- Result of one `generate_daily_plan` call: the returned plan or the
raised error, the `daily_plans` table afterwards, and how many LLM
attempts were made. -/
structure GenOutcome where
  result : Except GenError DailyPlan
  db : List PlanRow
  llmAttempts : Nat
deriving Repr

/-- Embedding of `PlanningEngine.generate_daily_plan`: parse the target
date (raising `ValueError` before any context gathering, LLM call or
write), run the retry loop, raise the aggregated error when no attempt
produced a validated plan, otherwise persist via the upsert and return
the plan.  Context gathering (step 1) is read-only and does not touch
`daily_plans`, so it does not appear in this state. -/
def generate_daily_plan (db : List PlanRow) (llm : Nat → Except String DailyPlan)
    (user_id target_date : String) : GenOutcome :=
  match strptimeYmd target_date with
  | none => ⟨.error .valueError, db, 0⟩
  | some d =>
    let r := planLoop llm 0 engineMaxRetries none
    match r.1 with
    | none => ⟨.error (.generationFailed engineMaxRetries r.2.1), db, r.2.2⟩
    | some plan => ⟨.ok plan, save_plan db user_id d plan, r.2.2⟩

theorem validate_plan_ok_eq {p q : DailyPlan} (h : validate_plan p = .ok q) : q = p := by
  simp only [validate_plan] at h
  split_ifs at h <;> (try cases h) <;>
    (repeat split at h <;> (try cases h)) <;> rfl

theorem validate_plan_ok_contract {p q : DailyPlan} (h : validate_plan p = .ok q) :
    planMatchesContract q = true := by
  have he : q = p := validate_plan_ok_eq h
  subst he
  have := validate_plan_isOk q
  rw [h] at this
  simpa [exceptIsOk] using this.symm

theorem planLoop_some {llm : Nat → Except String DailyPlan} :
    ∀ fuel a le p le' n, planLoop llm a fuel le = (some p, le', n) →
      planMatchesContract p = true := by
  intro fuel
  induction fuel with
  | zero => intro a le p le' n h; cases h
  | succ fuel ih =>
    intro a le p le' n h
    simp only [planLoop] at h
    cases hl : llm a with
    | error e => simp only [hl] at h; exact ih _ _ _ _ _ h
    | ok raw =>
      simp only [hl] at h
      cases hv : validate_plan raw with
      | error e => simp only [hv] at h; exact ih _ _ _ _ _ h
      | ok q =>
        simp only [hv] at h
        cases h
        exact validate_plan_ok_contract hv

theorem planLoop_none {llm : Nat → Except String DailyPlan} :
    ∀ fuel a le le' n, planLoop llm a fuel le = (none, le', n) → n = a + fuel := by
  intro fuel
  induction fuel with
  | zero => intro a le le' n h; cases h; simp
  | succ fuel ih =>
    intro a le le' n h
    simp only [planLoop] at h
    cases hl : llm a with
    | error e => simp only [hl] at h; have := ih _ _ _ _ h; omega
    | ok raw =>
      simp only [hl] at h
      cases hv : validate_plan raw with
      | error e => simp only [hv] at h; have := ih _ _ _ _ h; omega
      | ok q => simp only [hv] at h; cases h

/-- Behaviour of one `generate_daily_plan` call on a parseable date:
success returns a contract-satisfying plan and the upserted table; total
failure raises the aggregated error after exactly 3 LLM attempts and
leaves the table untouched. -/
theorem generate_daily_plan_spec (db : List PlanRow) (llm : Nat → Except String DailyPlan)
    (u s : String) (d : Nat × Nat × Nat) (hparse : strptimeYmd s = some d) :
    (∀ p, (generate_daily_plan db llm u s).result = .ok p →
        planMatchesContract p = true ∧
        (generate_daily_plan db llm u s).db = save_plan db u d p) ∧
    (∀ e, (generate_daily_plan db llm u s).result = .error e →
        (∃ last, e = .generationFailed 3 last) ∧
        (generate_daily_plan db llm u s).db = db ∧
        (generate_daily_plan db llm u s).llmAttempts = 3) := by
  rcases hr : planLoop llm 0 engineMaxRetries none with ⟨plan?, le', n⟩
  simp only [generate_daily_plan, hparse, hr]
  cases plan? with
  | none =>
    constructor
    · intro p hp; cases hp
    · intro e he
      simp only [Except.error.injEq] at he
      have hn : n = 0 + engineMaxRetries := planLoop_none _ _ _ _ _ hr
      have hn3 : n = 3 := by simpa [engineMaxRetries] using hn
      exact ⟨⟨le', he.symm⟩, rfl, hn3⟩
  | some p =>
    constructor
    · intro q hq
      simp only [Except.ok.injEq] at hq
      subst hq
      exact ⟨planLoop_some _ _ _ _ _ _ hr, rfl⟩
    · intro e he; cases he

/-! ## Concrete sample plans -/

/-- A syntactically valid 36-character identifier. -/
def sampleUuid : String := "123e4567-e89b-12d3-a456-426614174000"

/-- A structurally valid plan whose two time blocks overlap
(09:00-11:00 and 10:00-12:00). -/
def overlapPlan : DailyPlan :=
  { date := "2025-03-10"
    reasoning := "Focus tomorrow on the highest priority goal."
    priority_analysis := "Goal one dominates; social time is capped."
    time_blocks :=
      [ { start_time := "09:00", end_time := "11:00", task_id := some sampleUuid
          activity := "Deep work", priority := 5, reasoning := "peak focus hours" },
        { start_time := "10:00", end_time := "12:00", task_id := none
          activity := "Team meeting", priority := 3, reasoning := "required attendance" } ]
    social_time_allocation := { total_minutes := 120, reasoning := "hard cap" }
    goal_progress_assessment :=
      [ { goal_id := sampleUuid, status := "on_track", action_needed := "keep current pace" } ]
    warnings := [] }

/-- A second structurally valid plan with different payload and
reasoning, for regeneration scenarios. -/
def secondPlan : DailyPlan :=
  { overlapPlan with
    reasoning := "Regenerated: push the deadline work to the morning."
    time_blocks :=
      [ { start_time := "08:00", end_time := "12:00", task_id := some sampleUuid
          activity := "Deadline work", priority := 5, reasoning := "due tomorrow" } ] }

/-- The overlap plan with an out-of-range priority (7) in its only time
block. -/
def badPriorityPlan : DailyPlan :=
  { overlapPlan with
    time_blocks :=
      [ { start_time := "09:00", end_time := "11:00", task_id := none
          activity := "Deep work", priority := 7, reasoning := "peak focus hours" } ] }

/-- C4: `validate_plan` accepts a candidate plan exactly when it
structurally matches the contract of §4.2 — date of `YYYY-MM-DD` shape,
reasoning and priority analysis of at least 10 characters, time blocks
with `HH:MM`-shaped times, `task_id` null or a 36-character identifier,
non-empty activity, priority in [1,5] and non-empty reasoning, a
non-negative `total_minutes` with non-empty reasoning, identifier-shaped
`goal_id` with status among on_track/at_risk/blocked, warnings a
possibly empty list of strings.  A deviation yields an error naming the
failing field (shown for an out-of-range priority), and no
business-logic check is performed: a plan with overlapping time blocks
is accepted. -/
theorem C4_validate_plan_structural_iff :
    (∀ p : DailyPlan, exceptIsOk (validate_plan p) = planMatchesContract p) ∧
    validate_plan overlapPlan = .ok overlapPlan ∧
    validate_plan badPriorityPlan = .error "time_blocks.priority" :=
  ⟨validate_plan_isOk, by rfl, by rfl⟩

/-- C1: on a parseable target date, `generate_daily_plan` either
returns a plan satisfying the full structural contract and persists it
through the `(user, plan_date)` upsert, or fails with the single
aggregated error after exactly 3 generation attempts, in which case no
row of `daily_plans` is written. -/
theorem C1_generate_daily_plan_all_or_nothing
    (db : List PlanRow) (llm : Nat → Except String DailyPlan)
    (u s : String) (d : Nat × Nat × Nat) (hparse : strptimeYmd s = some d) :
    (∀ p, (generate_daily_plan db llm u s).result = .ok p →
        planMatchesContract p = true ∧
        (generate_daily_plan db llm u s).db = save_plan db u d p) ∧
    (∀ e, (generate_daily_plan db llm u s).result = .error e →
        (∃ last, e = .generationFailed 3 last) ∧
        (generate_daily_plan db llm u s).db = db ∧
        (generate_daily_plan db llm u s).llmAttempts = 3) :=
  generate_daily_plan_spec db llm u s d hparse

/-- Witness for C1 at a concrete input: an LLM that replies with a
valid plan on the first attempt, run on the empty table. -/
theorem C1_generate_daily_plan_all_or_nothing_witness :
    strptimeYmd "2025-03-10" = some (2025, 3, 10) ∧
    planMatchesContract overlapPlan = true ∧
    (generate_daily_plan [] (fun _ => Except.ok overlapPlan) "user-1" "2025-03-10").db =
      save_plan [] "user-1" (2025, 3, 10) overlapPlan := by
  have h := C1_generate_daily_plan_all_or_nothing []
    (fun _ => Except.ok overlapPlan) "user-1" "2025-03-10" (2025, 3, 10) (by rfl)
  exact ⟨by rfl, (h.1 overlapPlan (by rfl)).1, (h.1 overlapPlan (by rfl)).2⟩

/-! ## Upsert lemmas for the `(user_id, plan_date)` key -/

theorem rowHasKey_update (u' : String) (d' : Nat × Nat × Nat) (r : PlanRow)
    (p : DailyPlan) :
    rowHasKey u' d' { r with plan_json := p, reasoning := p.reasoning } =
      rowHasKey u' d' r := rfl

theorem save_plan_countP_map (db : List PlanRow) (u : String) (d : Nat × Nat × Nat)
    (p : DailyPlan) (u' : String) (d' : Nat × Nat × Nat) :
    (db.map (fun r =>
        if rowHasKey u d r then { r with plan_json := p, reasoning := p.reasoning }
        else r)).countP (rowHasKey u' d') = db.countP (rowHasKey u' d') := by
  rw [List.countP_map]
  apply List.countP_congr
  intro r _
  simp only [Function.comp_apply]
  by_cases hk : rowHasKey u d r = true
  · rw [if_pos hk, rowHasKey_update]
  · rw [if_neg hk]

theorem save_plan_countP_key (db : List PlanRow) (u : String) (d : Nat × Nat × Nat)
    (p : DailyPlan) (hu : db.countP (rowHasKey u d) ≤ 1) :
    (save_plan db u d p).countP (rowHasKey u d) = 1 := by
  unfold save_plan
  split_ifs with h
  · rw [save_plan_countP_map]
    rcases List.any_eq_true.mp h with ⟨r, hr, hkr⟩
    have hpos : 0 < db.countP (rowHasKey u d) := List.countP_pos_iff.mpr ⟨r, hr, hkr⟩
    omega
  · rw [List.countP_append]
    have h0 : db.countP (rowHasKey u d) = 0 := by
      rw [List.countP_eq_zero]
      intro a ha
      exact List.any_eq_false.mp (Bool.eq_false_iff.mpr h) a ha
    simp [h0, rowHasKey]

theorem save_plan_rows (db : List PlanRow) (u : String) (d : Nat × Nat × Nat)
    (p : DailyPlan) :
    ∀ r ∈ save_plan db u d p, rowHasKey u d r = true →
      r.plan_json = p ∧ r.reasoning = p.reasoning := by
  intro r hr hk
  unfold save_plan at hr
  split_ifs at hr with h
  · rcases List.mem_map.mp hr with ⟨r0, hr0, heq⟩
    by_cases hk0 : rowHasKey u d r0 = true
    · rw [if_pos hk0] at heq
      subst heq
      exact ⟨rfl, rfl⟩
    · rw [if_neg hk0] at heq
      subst heq
      exact absurd hk hk0
  · rcases List.mem_append.mp hr with h1 | h2
    · exact absurd hk (List.any_eq_false.mp (Bool.eq_false_iff.mpr h) r h1)
    · simp only [List.mem_singleton] at h2
      subst h2
      exact ⟨rfl, rfl⟩

theorem save_plan_keyUnique (db : List PlanRow) (u : String) (d : Nat × Nat × Nat)
    (p : DailyPlan) (hu : ∀ u' d', db.countP (rowHasKey u' d') ≤ 1) :
    ∀ u' d', (save_plan db u d p).countP (rowHasKey u' d') ≤ 1 := by
  intro u' d'
  unfold save_plan
  split_ifs with h
  · rw [save_plan_countP_map]
    exact hu u' d'
  · rw [List.countP_append]
    by_cases hk : rowHasKey u' d'
        { user_id := u, plan_date := d, plan_json := p,
          reasoning := p.reasoning, is_override := false } = true
    · have hud : u = u' ∧ d = d' := by simpa [rowHasKey] using hk
      have h0 : db.countP (rowHasKey u' d') = 0 := by
        rw [List.countP_eq_zero]
        intro a ha
        rw [← hud.1, ← hud.2]
        exact List.any_eq_false.mp (Bool.eq_false_iff.mpr h) a ha
      simp [h0, hk]
    · have hk0 : rowHasKey u' d'
          { user_id := u, plan_date := d, plan_json := p,
            reasoning := p.reasoning, is_override := false } = false :=
        Bool.eq_false_iff.mpr hk
      simp [hk0]
      exact hu u' d'

/-- C3: starting from a table with at most one row per key, two
successive successful `generate_daily_plan` calls for the same
`(user, date)` leave exactly one `daily_plans` row for that key, and
that row carries the second call's payload and reasoning — the upsert
replaces, never duplicates. -/
theorem C3_regeneration_upserts
    (db : List PlanRow) (llm1 llm2 : Nat → Except String DailyPlan)
    (u s : String) (d : Nat × Nat × Nat) (p1 p2 : DailyPlan)
    (hu : ∀ u' d', db.countP (rowHasKey u' d') ≤ 1)
    (hparse : strptimeYmd s = some d)
    (h1 : (generate_daily_plan db llm1 u s).result = .ok p1)
    (h2 : (generate_daily_plan (generate_daily_plan db llm1 u s).db llm2 u s).result
          = .ok p2) :
    ((generate_daily_plan (generate_daily_plan db llm1 u s).db llm2 u s).db.countP
        (rowHasKey u d) = 1) ∧
    (∀ r ∈ (generate_daily_plan (generate_daily_plan db llm1 u s).db llm2 u s).db,
        rowHasKey u d r = true → r.plan_json = p2 ∧ r.reasoning = p2.reasoning) := by
  have e1 := (generate_daily_plan_spec db llm1 u s d hparse).1 p1 h1
  have hu1 : ∀ u' d',
      (generate_daily_plan db llm1 u s).db.countP (rowHasKey u' d') ≤ 1 := by
    rw [e1.2]
    exact save_plan_keyUnique db u d p1 hu
  have e2 := (generate_daily_plan_spec (generate_daily_plan db llm1 u s).db
    llm2 u s d hparse).1 p2 h2
  rw [e2.2]
  exact ⟨save_plan_countP_key _ u d p2 (hu1 u d), save_plan_rows _ u d p2⟩

/-- Witness for C3 at a concrete input: two generations for 2025-03-10
on the empty table, the second returning a different plan. -/
theorem C3_regeneration_upserts_witness :
    (generate_daily_plan
        (generate_daily_plan [] (fun _ => Except.ok overlapPlan) "user-1" "2025-03-10").db
        (fun _ => Except.ok secondPlan) "user-1" "2025-03-10").db.countP
      (rowHasKey "user-1" (2025, 3, 10)) = 1 :=
  (C3_regeneration_upserts [] (fun _ => Except.ok overlapPlan)
    (fun _ => Except.ok secondPlan) "user-1" "2025-03-10" (2025, 3, 10)
    overlapPlan secondPlan (fun u' d' => by simp) (by rfl) (by rfl) (by rfl)).1

/-- C10 counterexample: `"2024-1-5"` is not in strict `YYYY-MM-DD`
form (shape `\d{4}-\d{2}-\d{2}`), yet `strptime('%Y-%m-%d')` accepts
it — `generate_daily_plan` raises no parse error and proceeds to a
normal result. -/
theorem C10_counterexample_lenient_parse :
    dateShape "2024-1-5" = false ∧
    (generate_daily_plan [] (fun _ => Except.ok overlapPlan) "user-1" "2024-1-5").result =
      Except.ok overlapPlan :=
  ⟨by rfl, by rfl⟩

/-- C10 amended: for every target date string that
`strptime('%Y-%m-%d')` rejects (rather than every non-strict string —
the parse is lenient about one-digit months and days),
`generate_daily_plan` raises the parse error immediately: no LLM
attempt is made and the table is untouched. -/
theorem C10_invalid_date_fails_before_effects
    (db : List PlanRow) (llm : Nat → Except String DailyPlan) (u s : String)
    (hbad : strptimeYmd s = none) :
    generate_daily_plan db llm u s = ⟨Except.error GenError.valueError, db, 0⟩ := by
  simp only [generate_daily_plan, hbad]

/-- Witness for the amended C10 at the concrete unparseable string
2024-13-01. -/
theorem C10_invalid_date_fails_before_effects_witness :
    generate_daily_plan [] (fun _ => Except.ok overlapPlan) "user-1" "2024-13-01" =
      ⟨Except.error GenError.valueError, [], 0⟩ :=
  C10_invalid_date_fails_before_effects [] (fun _ => Except.ok overlapPlan)
    "user-1" "2024-13-01" (by rfl)

/-! ## Completion client (llm_client.py)

The provider call `acompletion` is external nondeterminism, given as a
function from the attempt index to its outcome.  Backoff sleeps are
recorded in seconds (rationals, `retry_delay = 1.0`). -/

/-- Outcome of one provider call: the completion text, or the message
of the raised exception. -/
inductive LLMOutcome where
  | ok (content : String)
  | err (msg : String)
deriving Repr, DecidableEq

/-- Retryable-error vocabulary of `LLMClient.complete`, in source
order; each item is matched as a substring of the lower-cased error
text. -/
def retryCodes : List String :=
  ["rate limit", "timeout", "connection", "network", "temporary",
   "service unavailable", "429", "502", "503", "504"]

/-- Test that the first character list is an initial segment of the
second. -/
def firstMatches : List Char → List Char → Bool
  | [], _ => true
  | _ :: _, [] => false
  | a :: as, b :: bs => a == b && firstMatches as bs

/-- Python's `in` on strings: the needle occurs contiguously in the
hay. -/
def occursIn (needle : List Char) : List Char → Bool
  | [] => firstMatches needle []
  | b :: bs => firstMatches needle (b :: bs) || occursIn needle bs

/-- Lower-cased copy of a string (Python `str(error).lower()`). -/
def strLower (s : String) : String := String.mk (s.data.map Char.toLower)

/-- Embedding of the `retryable` classification in `complete`: some
vocabulary item occurs in the lower-cased error text. -/
def retryable (msg : String) : Bool :=
  retryCodes.any (fun code => occursIn code.data (strLower msg).data)

/-- Value of `self.max_retries` in `LLMClient.__init__`. -/
def llmMaxRetries : Nat := 3

/-- Value of `self.retry_delay` (seconds) in `LLMClient.__init__`. -/
def llmRetryDelay : ℚ := 1

/-- Message of the aggregated `LLMError` raised by `complete`. -/
def llmFailMsg : String :=
  "LLM API call failed after " ++ toString llmMaxRetries ++ " attempts"

/-- Trace of a `complete` call: the returned content or the raised
`LLMError` (aggregated message, last underlying failure), the number
of attempts made, and the backoff sleeps in seconds, in order. -/
structure CompleteTrace where
  result : Except (String × Option String) String
  attempts : Nat
  sleeps : List ℚ
deriving Repr

/-- The retry loop of `LLMClient.complete`: `for attempt in
range(max_retries)`, return the content on success; on an exception
record it as the last error, break when it is not retryable or this
was the last attempt, otherwise sleep `retry_delay * 2 ** attempt` and
continue; falling out of the loop raises the aggregated `LLMError`
carrying the last error.  `fuel` is `max_retries - attempt`, so
`fuel = 0` inside the loop body marks the last attempt. -/
def completeGo (provider : Nat → LLMOutcome) :
    Nat → Nat → Option String → List ℚ → CompleteTrace
  | attempt, 0, lastErr, sleeps => ⟨.error (llmFailMsg, lastErr), attempt, sleeps⟩
  | attempt, fuel + 1, lastErr, sleeps =>
    match provider attempt with
    | .ok c => ⟨.ok c, attempt + 1, sleeps⟩
    | .err m =>
      if !retryable m || fuel == 0 then
        ⟨.error (llmFailMsg, some m), attempt + 1, sleeps⟩
      else
        completeGo provider (attempt + 1) fuel (some m)
          (sleeps ++ [llmRetryDelay * 2 ^ attempt])

/-- Embedding of `LLMClient.complete` (the retry part; the request
parameters are modelled separately by `buildParams`). -/
def complete (provider : Nat → LLMOutcome) : CompleteTrace :=
  completeGo provider 0 llmMaxRetries none []

/-- C5 counterexample: an error whose text is exactly "temporarily
unavailable" is NOT classified retryable — the vocabulary holds
"temporary" and "service unavailable", neither of which is a substring
of it — so `complete` aborts after one attempt with no backoff sleep,
where the claim (listing "temporarily unavailable" as retryable) says
it would retry. -/
theorem C5_counterexample_temporarily_unavailable :
    retryable "temporarily unavailable" = false ∧
    (complete (fun _ => LLMOutcome.err "temporarily unavailable")).attempts = 1 ∧
    (complete (fun _ => LLMOutcome.err "temporarily unavailable")).sleeps = [] :=
  ⟨by rfl, by rfl, by rfl⟩

/-- C5 amended: `complete` makes at most 3 attempts, retrying only
when the lower-cased error text contains one of the vocabulary items
rate limit / timeout / connection / network / temporary /
service unavailable / 429 / 502 / 503 / 504 (rather than the phrase
"temporarily unavailable"), sleeping `1 * 2^(n-2)` seconds before
attempt `n` and only between attempts; a non-matching error aborts
right after its attempt with no sleep; exhaustion raises one
aggregated LLM error carrying the last underlying failure. -/
theorem C5_complete_retry_policy :
    (∀ f m, f 0 = LLMOutcome.err m → retryable m = false →
        complete f = ⟨.error (llmFailMsg, some m), 1, []⟩) ∧
    (∀ f m c, retryable m = true →
        f 0 = LLMOutcome.err m → f 1 = LLMOutcome.err m → f 2 = LLMOutcome.ok c →
        complete f = ⟨.ok c, 3, [1, 2]⟩) ∧
    (∀ f m0 m1 m2, retryable m0 = true → retryable m1 = true →
        f 0 = LLMOutcome.err m0 → f 1 = LLMOutcome.err m1 → f 2 = LLMOutcome.err m2 →
        complete f = ⟨.error (llmFailMsg, some m2), 3, [1, 2]⟩) ∧
    (∀ f m0 m1, retryable m0 = true → retryable m1 = false →
        f 0 = LLMOutcome.err m0 → f 1 = LLMOutcome.err m1 →
        complete f = ⟨.error (llmFailMsg, some m1), 2, [1]⟩) := by
  refine ⟨?_, ?_, ?_, ?_⟩
  · intro f m h0 hr
    simp [complete, completeGo, llmMaxRetries, h0, hr]
  · intro f m c hr h0 h1 h2
    simp [complete, completeGo, llmMaxRetries, llmRetryDelay, h0, h1, h2, hr]
    try norm_num
  · intro f m0 m1 m2 hr0 hr1 h0 h1 h2
    simp [complete, completeGo, llmMaxRetries, llmRetryDelay, h0, h1, h2, hr0, hr1]
    try norm_num
  · intro f m0 m1 hr0 hr1 h0 h1
    simp [complete, completeGo, llmMaxRetries, llmRetryDelay, h0, h1, hr0, hr1]
    try norm_num

/-- Witness for C5 at a concrete provider: two rate-limit failures then
success on the third attempt, returned with backoff sleeps of 1s and
2s. -/
theorem C5_complete_retry_policy_witness :
    complete (fun n => if n < 2 then LLMOutcome.err "rate limit exceeded"
                       else LLMOutcome.ok "plan text") =
      ⟨.ok "plan text", 3, [1, 2]⟩ :=
  C5_complete_retry_policy.2.1
    (fun n => if n < 2 then LLMOutcome.err "rate limit exceeded"
              else LLMOutcome.ok "plan text")
    "rate limit exceeded" "plan text" (by rfl) (by rfl) (by rfl) (by rfl)

/-! ## Request parameters of `complete` (C8) -/

/-- Values of a Python options dictionary. -/
inductive PyVal where
  | num (q : ℚ)
  | boolean (b : Bool)
  | str (s : String)
deriving Repr, DecidableEq

/-- Model of `dict.get(key)`: the first binding of the key, if any. -/
def dictGet (opts : List (String × PyVal)) (k : String) : Option PyVal :=
  (opts.find? (fun kv => kv.1 == k)).map (fun kv => kv.2)

/-- Python truthiness of `options.get("jsonMode")`. -/
def pyTruthy : Option PyVal → Bool
  | none => false
  | some (.num q) => !(q == 0)
  | some (.boolean b) => b
  | some (.str s) => !(s == "")

/-- The request parameters `complete` builds from `options` (model,
messages and api key omitted — they do not depend on `options`). -/
structure RequestParams where
  temperature : PyVal
  maxTokens : PyVal
  responseFormatJson : Bool
deriving Repr, DecidableEq

/-- Embedding of the params construction in `LLMClient.complete`:
`options.get("temperature", 0.7)`, `options.get("maxTokens", 2000)`,
and `response_format json_object` exactly when `options.get("jsonMode")`
is truthy. -/
def buildParams (opts : List (String × PyVal)) : RequestParams :=
  { temperature := (dictGet opts "temperature").getD (.num (7 / 10)),
    maxTokens := (dictGet opts "maxTokens").getD (.num 2000),
    responseFormatJson := pyTruthy (dictGet opts "jsonMode") }

/-- C8 counterexample: the option keys the claim names are not the
ones the code reads — supplying `max_output_tokens` leaves the
max-token parameter at its default 2000, and `json_mode = true` does
not request a structured-JSON response format. -/
theorem C8_counterexample_option_keys :
    (buildParams [("max_output_tokens", PyVal.num 500)]).maxTokens = PyVal.num 2000 ∧
    (buildParams [("json_mode", PyVal.boolean true)]).responseFormatJson = false :=
  ⟨by rfl, by rfl⟩

/-- C8 amended: the recognized option keys are `temperature` (default
0.7), `maxTokens` (default 2000) and `jsonMode` (truthy value requests
the structured-JSON response format); present values are passed
through unchanged. -/
theorem C8_complete_option_handling :
    (∀ opts v, dictGet opts "temperature" = some v →
        (buildParams opts).temperature = v) ∧
    (∀ opts, dictGet opts "temperature" = none →
        (buildParams opts).temperature = PyVal.num (7 / 10)) ∧
    (∀ opts v, dictGet opts "maxTokens" = some v →
        (buildParams opts).maxTokens = v) ∧
    (∀ opts, dictGet opts "maxTokens" = none →
        (buildParams opts).maxTokens = PyVal.num 2000) ∧
    (∀ opts, (buildParams opts).responseFormatJson = pyTruthy (dictGet opts "jsonMode")) := by
  refine ⟨?_, ?_, ?_, ?_, fun opts => rfl⟩
  · intro opts v h; simp [buildParams, h]
  · intro opts h; simp [buildParams, h]
  · intro opts v h; simp [buildParams, h]
  · intro opts h; simp [buildParams, h]

/-- Witness for C8 at a concrete options dictionary. -/
theorem C8_complete_option_handling_witness :
    (buildParams [("temperature", PyVal.num (1 / 2)), ("maxTokens", PyVal.num 500),
        ("jsonMode", PyVal.boolean true)]).temperature = PyVal.num (1 / 2) :=
  C8_complete_option_handling.1
    [("temperature", PyVal.num (1 / 2)), ("maxTokens", PyVal.num 500),
     ("jsonMode", PyVal.boolean true)] (PyVal.num (1 / 2)) (by rfl)

/-! ## Week buckets and the override policy (C6, C7) -/

/-- C6: the week bucket is not constant on ISO weeks.  2024-01-01 is
the Monday and 2024-01-07 the Sunday of one ISO week (weekdays 0 and 6,
six days apart), and Monday through Friday share bucket 1 as the claim
says, but `get_week_number` advances a Sunday to the NEXT week's
Thursday (`day_num` 7 is remapped to 0, so the shift `4 - day_num`
becomes +4 instead of -3) and puts 2024-01-07 in bucket 2, the bucket
of the following ISO week — contradicting the function's own stated
purpose of returning the ISO week number. -/
theorem C6_week_bucket_sunday_mismatch :
    pyWeekday (daysFromCivil 2024 1 1) = 0 ∧
    pyWeekday (daysFromCivil 2024 1 7) = 6 ∧
    daysFromCivil 2024 1 7 = daysFromCivil 2024 1 1 + 6 ∧
    getWeekNumber 2024 1 1 = 1 ∧
    getWeekNumber 2024 1 5 = 1 ∧
    getWeekNumber 2024 1 6 = 1 ∧
    getWeekNumber 2024 1 7 = 2 ∧
    getWeekNumber 2024 1 8 = 2 :=
  ⟨by rfl, by rfl, by rfl, by rfl, by rfl, by rfl, by rfl, by rfl⟩

/-- One row of the `override_log` table (the columns the quota check
reads; id and timestamp are not modelled). -/
structure OverrideRow where
  user_id : String
  plan_id : String
  override_type : String
  override_reason : String
  week_number : Nat
deriving Repr, DecidableEq

/-- Result shape of `check_weekly_overrides` (the returned dict). -/
structure OverrideStatus where
  count : Nat
  remaining : Int
  limit : Nat
  canOverride : Bool
deriving Repr, DecidableEq

/-- Embedding of `PlanningEngine.check_weekly_overrides`: count the
user's `override_log` rows whose stored week number equals
`get_week_number(now)`, read `MAX_WEEKLY_OVERRIDES` from the
environment (default 5), and return count, `max(0, limit - count)`,
the limit and `count < limit`. -/
def check_weekly_overrides (log : List OverrideRow) (u : String)
    (now : Nat × Nat × Nat) (envMax : Option Nat) : OverrideStatus :=
  let wk := getWeekNumber now.1 now.2.1 now.2.2
  let count := (log.filter (fun r => r.user_id == u && r.week_number == wk)).length
  let maxOverrides := envMax.getD 5
  { count := count,
    remaining := max 0 ((maxOverrides : Int) - count),
    limit := maxOverrides,
    canOverride := count < maxOverrides }

/-- Embedding of `PlanningEngine.log_override`: unconditionally insert
a row carrying the current week bucket. -/
def log_override (log : List OverrideRow) (u plan_id override_type reason : String)
    (now : Nat × Nat × Nat) : List OverrideRow :=
  log ++ [{ user_id := u, plan_id := plan_id, override_type := override_type,
            override_reason := reason,
            week_number := getWeekNumber now.1 now.2.1 now.2.2 }]

/-- C7: `check_weekly_overrides` returns the count of the user's
override rows stored under the current week bucket, the configured
limit (default 5), `remaining = max(0, limit - count)` and
`can_override = (count < limit)`; with limit 5 and exactly 5 current
overrides it denies with remaining 0; and `log_override` inserts
unconditionally — one more row regardless of the current state. -/
theorem C7_weekly_override_policy :
    (∀ log u now envMax,
        (check_weekly_overrides log u now envMax).count =
          log.countP (fun r => r.user_id == u &&
            r.week_number == getWeekNumber now.1 now.2.1 now.2.2) ∧
        (check_weekly_overrides log u now envMax).limit = envMax.getD 5 ∧
        (check_weekly_overrides log u now envMax).remaining =
          max 0 ((envMax.getD 5 : Int) - (check_weekly_overrides log u now envMax).count) ∧
        (check_weekly_overrides log u now envMax).canOverride =
          decide ((check_weekly_overrides log u now envMax).count < envMax.getD 5)) ∧
    (∀ log u now envMax,
        (check_weekly_overrides log u now envMax).count = 5 → envMax.getD 5 = 5 →
        (check_weekly_overrides log u now envMax).canOverride = false ∧
        (check_weekly_overrides log u now envMax).remaining = 0) ∧
    (∀ log u p t r now, (log_override log u p t r now).length = log.length + 1 ∧
        (log_override log u p t r now).getLast? =
          some { user_id := u, plan_id := p, override_type := t,
                 override_reason := r,
                 week_number := getWeekNumber now.1 now.2.1 now.2.2 }) := by
  refine ⟨?_, ?_, ?_⟩
  · intro log u now envMax
    refine ⟨?_, rfl, rfl, rfl⟩
    simp [check_weekly_overrides, List.countP_eq_length_filter]
  · intro log u now envMax hc hl
    simp only [check_weekly_overrides] at hc ⊢
    constructor
    · simp only [hc] at *
      simp [hl] at *
      try omega
    · rw [hc, hl]
      rfl
  · intro log u p t r now
    constructor
    · simp [log_override]
    · simp [log_override]

/-- Five override rows for user-1 stored under week bucket 11 (the
bucket of 2025-03-10). -/
def fiveOverrides : List OverrideRow :=
  List.replicate 5
    { user_id := "user-1", plan_id := "plan-1", override_type := "manual",
      override_reason := "testing", week_number := 11 }

/-- Witness for C7 at a concrete state: five overrides already logged
in the current week, default limit. -/
theorem C7_weekly_override_policy_witness :
    (check_weekly_overrides fiveOverrides "user-1" (2025, 3, 10) none).canOverride = false ∧
    (check_weekly_overrides fiveOverrides "user-1" (2025, 3, 10) none).remaining = 0 :=
  C7_weekly_override_policy.2.1 fiveOverrides "user-1" (2025, 3, 10) none (by rfl) (by rfl)

/-! ## Planning context: the calendar-events query (C2)

`gather_planning_context` computes `tomorrow = target_date + 1 day`
and its string, but the calendar query it then issues is
`SELECT ... FROM calendar_events WHERE user_id = $1 ORDER BY
start_time ASC` — the source comment calls these "tomorrow's calendar
events" with a "simplified query", and no date condition appears. -/

/-- One row of the `calendar_events` table; `start_time`/`end_time`
are timestamps in absolute minutes (1440 per day from the calendar's
day zero). -/
structure CalendarEvent where
  id : String
  user_id : String
  title : String
  start_time : Nat
  end_time : Nat
  event_type : String
  is_blocking : Bool
deriving Repr, DecidableEq

/-- Day (absolute day number) on which an event starts. -/
def eventDay (e : CalendarEvent) : Nat := e.start_time / 1440

/-- Insert an event into a start-time-ordered list. -/
def insertByStart (e : CalendarEvent) : List CalendarEvent → List CalendarEvent
  | [] => [e]
  | x :: xs =>
    if e.start_time ≤ x.start_time then e :: x :: xs else x :: insertByStart e xs

/-- The `ORDER BY start_time ASC` of the calendar query, as insertion
sort. -/
def orderByStart : List CalendarEvent → List CalendarEvent
  | [] => []
  | x :: xs => insertByStart x (orderByStart xs)

/-- The parts of the planning context the calendar claim is about. -/
structure PlanningContext where
  date : String
  tomorrowStr : String
  calendarEvents : List CalendarEvent
deriving Repr, DecidableEq

/-- Embedding of `PlanningEngine.gather_planning_context` (the date
computation and the calendar query): parse the target date, compute
`tomorrow = target_date + 1 day` and format it (the code computes
`tomorrow_str` but the query does not use it), and select ALL of the
user's calendar events ordered by start time. -/
def gather_planning_context (cal : List CalendarEvent) (u target_date : String) :
    Option PlanningContext :=
  match strptimeYmd target_date with
  | none => none
  | some d =>
    let tomorrow := civilFromDays (daysFromCivil d.1 d.2.1 d.2.2 + 1)
    some { date := target_date,
           tomorrowStr := strftimeYmd tomorrow,
           calendarEvents := orderByStart (cal.filter (fun e => e.user_id == u)) }

/-- A calendar event of user-1 starting 09:00 on 2025-03-20 — nine
days after the "tomorrow" of target date 2025-03-10. -/
def farEvent : CalendarEvent :=
  { id := "ev-1", user_id := "user-1", title := "Conference",
    start_time := daysFromCivil 2025 3 20 * 1440 + 540,
    end_time := daysFromCivil 2025 3 20 * 1440 + 600,
    event_type := "external", is_blocking := true }

/-- C2: the context's calendar events are NOT restricted to
`tomorrow = target_date + 1 day`.  For target date 2025-03-10
(tomorrow 2025-03-11), an event on 2025-03-20 is still placed in the
context: the query selects every event of the user, while the
function's own comment ("Get tomorrow's calendar events") and the
prompt label ("CALENDAR EVENTS (TOMORROW)") promise only the next
day's. -/
theorem C2_calendar_events_not_filtered :
    gather_planning_context [farEvent] "user-1" "2025-03-10" =
      some { date := "2025-03-10", tomorrowStr := "2025-03-11",
             calendarEvents := [farEvent] } ∧
    eventDay farEvent ≠ daysFromCivil 2025 3 11 :=
  ⟨by rfl, by decide⟩

/-! ## Nightly planning job (scheduler.py, C9) -/

/-- What one firing of the nightly job did. -/
structure JobRun where
  skipped : Bool
  errorLogged : Bool
  generatedFor : Option String
deriving Repr, DecidableEq

/-- The body of the `try` block of `_nightly_planning_job`: look up
the sole user (`get_user()`), return silently when absent, otherwise
compute `tomorrow = now + 1 day` and call
`generate_daily_plan(user, tomorrow)`; an exception from the lookup
already being absorbed into `user?`, an engine exception propagates
out of the body. -/
def nightlyBody (user? : Option String) (gen : String → Except String Unit)
    (now : Nat × Nat × Nat) : Except String JobRun :=
  match user? with
  | none => .ok { skipped := true, errorLogged := false, generatedFor := none }
  | some _u =>
    let target := strftimeYmd (civilFromDays (daysFromCivil now.1 now.2.1 now.2.2 + 1))
    match gen target with
    | .ok _ => .ok { skipped := false, errorLogged := false, generatedFor := some target }
    | .error e => .error e

/-- Embedding of `PlanningScheduler._nightly_planning_job`: the whole
body runs inside `try/except Exception`, so any failure is logged and
swallowed instead of propagating. -/
def nightly_planning_job (user? : Option String) (gen : String → Except String Unit)
    (now : Nat × Nat × Nat) : Except String JobRun :=
  match nightlyBody user? gen now with
  | .ok r => .ok r
  | .error _ => .ok { skipped := false, errorLogged := true, generatedFor := none }

/-- C9: the nightly planning job never propagates an exception — every
run returns normally; a missing provisioned user is a silent skip with
no error logged, and a failure of the plan generation for
`tomorrow = now + 1 day` is caught and logged. -/
theorem C9_nightly_job_never_raises :
    (∀ user? gen now, exceptIsOk (nightly_planning_job user? gen now) = true) ∧
    (∀ gen now, nightly_planning_job none gen now =
        .ok { skipped := true, errorLogged := false, generatedFor := none }) ∧
    (∀ u gen now e,
        gen (strftimeYmd (civilFromDays (daysFromCivil now.1 now.2.1 now.2.2 + 1))) =
          .error e →
        nightly_planning_job (some u) gen now =
          .ok { skipped := false, errorLogged := true, generatedFor := none }) := by
  refine ⟨?_, fun gen now => rfl, ?_⟩
  · intro user? gen now
    cases user? with
    | none => rfl
    | some u =>
      simp only [nightly_planning_job, nightlyBody]
      cases gen (strftimeYmd (civilFromDays (daysFromCivil now.1 now.2.1 now.2.2 + 1))) with
      | ok r => rfl
      | error e => rfl
  · intro u gen now e hg
    simp only [nightly_planning_job, nightlyBody, hg]

/-- Witness for C9 at a concrete firing: a provisioned user whose plan
generation raises. -/
theorem C9_nightly_job_never_raises_witness :
    nightly_planning_job (some "user-1") (fun _ => Except.error "generation failed")
        (2025, 3, 10) =
      .ok { skipped := false, errorLogged := true, generatedFor := none } :=
  C9_nightly_job_never_raises.2.2 "user-1" (fun _ => Except.error "generation failed")
    (2025, 3, 10) "generation failed" (by rfl)

end MetaConscious
